import Mathlib

/-!
Shallow embedding of the ink! governance contract in
`src/contracts/dao/lib.rs` (module `dao`), together with theorems settling
the specification claims against it.

Modelling conventions:
* `u8`/`u32`/`u64`/`u128` values are `Nat`; wrapping casts are written with
  explicit `% 2 ^ w` where the source performs an `as` cast.
* ink `Mapping` is an association list with insert-as-cons and
  first-match lookup (`mget` / `minsert`); the `votes` set mapping
  `(ProposalId, AccountId) -> ()` is a key list (`vget` / `vinsert`).
* The host environment of a call (block timestamp, caller, the contract's
  own balance, and the outcome of the cross-contract
  `PSP22::total_supply` call built with `build_call` / `try_invoke`) is an
  explicit `Env` record.  `total_supply_result = none` models a failed
  cross-contract call, whose double `unwrap` in the source panics.
* A call returns a `CallOutcome`: `ok`/`err` carry the post-state, `trap`
  models a Rust panic (`Option.unwrap` on `None`, or integer division by
  zero).
* The repository defines `ensure!(cond, err)` as `if cond { return Err(err) }`,
  i.e. it errors when the condition is TRUE; every guard below transcribes
  the source's condition verbatim under that reading.
-/

namespace Dao

abbrev ProposalId := Nat
abbrev AccountId := Nat
abbrev Balance := Nat
abbrev Timestamp := Nat

inductive VoteType where
  | Against
  | For
deriving DecidableEq

inductive GovernorError where
  | AmountShouldNotBeZero
  | DurationError
  | ProposalNotFound
  | VotePeriodEnded
  | ProposalAlreadyExecuted
  | AlreadyVoted
  | QuorumNotReached
  | ProposalNotAccepted
deriving DecidableEq

structure Proposal where
  to_ : AccountId
  vote_start : Timestamp
  vote_end : Timestamp
  executed : Bool
  amount : Balance
deriving DecidableEq

structure ProposalVote where
  for_votes : Nat
  against_vote : Nat
deriving DecidableEq

/-- `Mapping::get`: first-match lookup in the association list. -/
def mget {V : Type} (m : List (Nat × V)) (k : Nat) : Option V :=
  (m.find? (fun p => p.1 == k)).map Prod.snd

/-- `Mapping::insert`: prepend; `mget` then sees the newest binding. -/
def minsert {V : Type} (m : List (Nat × V)) (k : Nat) (v : V) :
    List (Nat × V) :=
  (k, v) :: m

/-- `Mapping<(ProposalId, AccountId), ()>::get` on the vote-record set. -/
def vget (m : List (ProposalId × AccountId)) (k : ProposalId × AccountId) :
    Option Unit :=
  if m.contains k then some () else none

/-- `Mapping<(ProposalId, AccountId), ()>::insert` on the vote-record set. -/
def vinsert (m : List (ProposalId × AccountId)) (k : ProposalId × AccountId) :
    List (ProposalId × AccountId) :=
  k :: m

/-- The `#[ink(storage)]` struct `Governor`. -/
structure Governor where
  governance_token : AccountId
  quorum : Nat
  proposals : List (ProposalId × Proposal)
  proposal_votes : List (ProposalId × ProposalVote)
  votes : List (ProposalId × AccountId)
  next_proposal_id : ProposalId
deriving DecidableEq

/-- Host environment of one message call. -/
structure Env where
  block_timestamp : Timestamp
  caller : AccountId
  balance : Balance
  total_supply_result : Option Balance
deriving DecidableEq

/-- Result of one message call: `trap` models a Rust panic. -/
inductive CallOutcome where
  | ok (s : Governor)
  | err (e : GovernorError) (s : Governor)
  | trap
deriving DecidableEq

/-- Post-state of a non-panicking call. -/
def CallOutcome.state? : CallOutcome → Option Governor
  | .ok s => some s
  | .err _ s => some s
  | .trap => none

/-- The constructor `Governor::new`. -/
def Governor.new (governance_token : AccountId) (quorum : Nat) : Governor :=
  { governance_token := governance_token
    quorum := quorum
    proposals := []
    proposal_votes := []
    votes := []
    next_proposal_id := 0 }

/-- The message `next_proposal_id`: returns the counter plus one without
mutating it (u32 arithmetic). -/
def Governor.next_proposal_id_message (s : Governor) : ProposalId :=
  (s.next_proposal_id + 1) % 2 ^ 32

/-- The message `get_proposal`: `Ok(self.proposals.get(id).unwrap())`;
`none` models the panic of `unwrap` on a missing entry. -/
def Governor.get_proposal (s : Governor) (proposal_id : ProposalId) :
    Option Proposal :=
  mget s.proposals proposal_id

/-- The message `propose`.  Source facts transcribed verbatim: the guards
error when `amount == 0` resp. `duration == 0`; the stored proposal has
`vote_start = block_timestamp` but `vote_end = duration` (NOT
`block_timestamp + duration`); the proposal is inserted at the CURRENT
`next_proposal_id`, and the counter is never incremented. -/
def Governor.propose (s : Governor) (env : Env) (to_ : AccountId)
    (amount : Balance) (duration : Nat) : CallOutcome :=
  if amount = 0 then .err .AmountShouldNotBeZero s
  else if duration = 0 then .err .DurationError s
  else
    let proposal : Proposal :=
      { to_ := to_
        vote_start := env.block_timestamp
        vote_end := duration
        executed := false
        amount := amount }
    .ok { s with proposals := minsert s.proposals s.next_proposal_id proposal }

/-- Lines 140-149 of `vote`: `weight = self.env().balance()` (the
contract's own balance, not the caller's token balance) divided by the
unwrapped `total_supply` cross-contract result.  `none` models a panic:
either `unwrap` of a failed call, or integer division by zero. -/
def vote_weight (env : Env) : Option Balance :=
  match env.total_supply_result with
  | none => none
  | some total_supply =>
      if total_supply = 0 then none
      else some (env.balance / total_supply)

/-- Lines 140-156 of `vote`, operating on the state `s1` reached after the
vote-record insert of line 139: the weight computation (whose `unwrap`s and
division may panic) followed by the tally update of lines 151-154, which
computes the new total and DISCARDS it (`_discarded`) — `proposal_votes`
is read with `unwrap` (panic when the entry is missing) and never
written. -/
def vote_tail (s1 : Governor) (env : Env) (proposal_id : ProposalId)
    (v : VoteType) : CallOutcome :=
  match vote_weight env with
  | none => .trap
  | some weight =>
    match mget s1.proposal_votes proposal_id with
    | none => .trap
    | some pv =>
      let _discarded : Nat :=
        match v with
        | VoteType.For => (pv.for_votes + weight) % 2 ^ 128
        | VoteType.Against => (pv.against_vote + weight) % 2 ^ 128
      .ok s1

/-- The message `vote`.  Guard conditions transcribed verbatim under the
repository's `ensure!` (error when the condition is true): it errors with
`VotePeriodEnded` when `vote_end > now` (window still open) and with
`AlreadyVoted` when the caller's vote record `is_none` (first vote).
After the guards it inserts the caller's vote record and runs
`vote_tail`. -/
def Governor.vote (s : Governor) (env : Env) (proposal_id : ProposalId)
    (v : VoteType) : CallOutcome :=
  match mget s.proposals proposal_id with
  | none => .err .ProposalNotFound s
  | some p =>
    if p.executed = true then .err .ProposalAlreadyExecuted s
    else if p.vote_end > env.block_timestamp then .err .VotePeriodEnded s
    else if (vget s.votes (proposal_id, env.caller)).isNone then
      .err .AlreadyVoted s
    else
      vote_tail { s with votes := vinsert s.votes (proposal_id, env.caller) }
        env proposal_id v

/-- The message `execute`.  Transcribed verbatim: reads the tally with
`unwrap` (panic when absent); `total_votes` is the u64 sum cast `as u8`;
errors with `ProposalNotAccepted` when `for_votes >= 50` (fixed constant,
fired by `ensure!` when TRUE); errors with `AlreadyVoted` when the
CALLER's vote record `is_none`; finally sets `executed = true` on the
temporary returned by `get(..).unwrap()` without writing it back
(`_unpersisted`), so the stored proposal is unchanged. -/
def Governor.execute (s : Governor) (env : Env) (proposal_id : ProposalId) :
    CallOutcome :=
  match mget s.proposals proposal_id with
  | none => .err .ProposalNotFound s
  | some p =>
    if p.executed = true then .err .ProposalAlreadyExecuted s
    else
      match mget s.proposal_votes proposal_id with
      | none => .trap
      | some pv =>
        if ((pv.for_votes + pv.against_vote) % 2 ^ 64) % 2 ^ 8 < s.quorum then
          .err .QuorumNotReached s
        else if pv.for_votes ≥ 50 then .err .ProposalNotAccepted s
        else if (vget s.votes (proposal_id, env.caller)).isNone then
          .err .AlreadyVoted s
        else
          let _unpersisted : Proposal := { p with executed := true }
          .ok s

/-- The message `now`. -/
def Governor.now (env : Env) : Timestamp :=
  env.block_timestamp

/-- The spec's weight formula (§4.3), stated in the spec's own words for
comparison with `vote_weight`: `weight = balance * SCALE / total_supply`
with `SCALE = 10 ^ 12`. -/
def specWeight (balance total_supply : Balance) : Balance :=
  balance * 10 ^ 12 / total_supply

/-! Concrete fixtures used to evaluate the code at failing inputs. -/

/-- An unexecuted proposal with voting window `[0, 10)`. -/
def p0 : Proposal :=
  { to_ := 9, vote_start := 0, vote_end := 10, executed := false, amount := 100 }

/-- Call environment: timestamp 50 (past `p0.vote_end`), caller 7, contract
balance 500, total supply 100. -/
def env0 : Env :=
  { block_timestamp := 50, caller := 7, balance := 500
    total_supply_result := some 100 }

/-- Like `env0` but at timestamp 5, inside `p0`'s voting window. -/
def env_open : Env :=
  { env0 with block_timestamp := 5 }

/-- Like `env0` but with caller 6. -/
def env6 : Env :=
  { env0 with caller := 6 }

/-- Call environment at timestamp 5 for `propose` fixtures. -/
def env5 : Env :=
  { block_timestamp := 5, caller := 7, balance := 500
    total_supply_result := some 100 }

/-- Fresh contract, quorum 50. -/
def s_new : Governor :=
  Governor.new 1 50

/-- Proposal 0 present, no tally entry, no vote records. -/
def s_fresh : Governor :=
  { s_new with proposals := [(0, p0)] }

/-- Proposal 0 present, tally `(10, 0)`, caller 7 already in the vote set. -/
def s_voted : Governor :=
  { s_new with
    proposals := [(0, p0)]
    proposal_votes := [(0, ⟨10, 0⟩)]
    votes := [(0, 7)] }

/-- Proposal 0 present, tally `(40, 30)` (quorum 50 met, `for < 50`),
caller 7 in the vote set. -/
def s_exec : Governor :=
  { s_new with
    proposals := [(0, p0)]
    proposal_votes := [(0, ⟨40, 30⟩)]
    votes := [(0, 7)] }

/-- Proposal 0 present, tally `(60, 10)`: a clear weighted majority for. -/
def s_majorityFor : Governor :=
  { s_new with
    proposals := [(0, p0)]
    proposal_votes := [(0, ⟨60, 10⟩)]
    votes := [(0, 7)] }

/-- Proposal 0 present, tally `(40, 45)`: against outweighs for. -/
def s_majorityAgainst : Governor :=
  { s_new with
    proposals := [(0, p0)]
    proposal_votes := [(0, ⟨40, 45⟩)]
    votes := [(0, 7)] }

/-- Proposal 0 present, tally `(40, 30)`, caller 7 NOT in the vote set. -/
def s_noVoter : Governor :=
  { s_new with
    proposals := [(0, p0)]
    proposal_votes := [(0, ⟨40, 30⟩)] }

/-- Proposal 0 present, vote record for caller 7 but NO tally entry. -/
def s_ghost : Governor :=
  { s_new with
    proposals := [(0, p0)]
    votes := [(0, 7)] }

/-- Claim C1: an accepted `vote(0, For)` with weight 5 should persist
`for_votes + 5`.  Evaluating the code at the failing input: the call
returns `ok` (only the vote-record set changes) while the stored tally is
still `(10, 0)` — the new total `10 + 5` is computed and then discarded,
never written back to `proposal_votes`. -/
theorem claim_C1 :
    vote_weight env0 = some 5 ∧
    Governor.vote s_voted env0 0 VoteType.For =
      CallOutcome.ok { s_voted with votes := (0, 7) :: s_voted.votes } ∧
    ((Governor.vote s_voted env0 0 VoteType.For).state?.map
        fun g => mget g.proposal_votes 0) =
      some (some ⟨10, 0⟩) := by
  decide

/-- Claim C2: a successful `execute` should persist `executed = true` and a
second call should return `ProposalAlreadyExecuted`.  Evaluating the code at
the failing input: `execute` succeeds but returns the state UNCHANGED (the
flag is set on a temporary copy), the stored proposal still has
`executed = false`, and a second `execute` on the resulting state succeeds
again instead of failing with `ProposalAlreadyExecuted`. -/
theorem claim_C2 :
    Governor.execute s_exec env0 0 = CallOutcome.ok s_exec ∧
    (mget s_exec.proposals 0).map Proposal.executed = some false ∧
    Governor.execute s_exec env0 0 ≠
      CallOutcome.err GovernorError.ProposalAlreadyExecuted s_exec := by
  decide

/-- Claim C3: `vote` should return `VotePeriodEnded` exactly when
`now ≥ vote_end`.  Evaluating the code at the failing input: the guard is
inverted — at timestamp 5, INSIDE the window `[0, 10)`, the call returns
`VotePeriodEnded`; at timestamp 50, PAST `vote_end`, the timing guard
passes and the call proceeds to the (also inverted) vote-record guard. -/
theorem claim_C3 :
    Governor.vote s_fresh env_open 0 VoteType.For =
      CallOutcome.err GovernorError.VotePeriodEnded s_fresh ∧
    Governor.vote s_fresh env0 0 VoteType.For =
      CallOutcome.err GovernorError.AlreadyVoted s_fresh := by
  decide

/-- Claim C4: `execute` should return `ProposalNotAccepted` exactly when
`for_votes ≤ against_votes`.  Evaluating the code at the failing inputs:
with tally `(60, 10)` (a clear majority for) it returns
`ProposalNotAccepted` because the inverted guard fires on the fixed
constant `for_votes ≥ 50`; with tally `(40, 45)` (against outweighs for)
it succeeds. -/
theorem claim_C4 :
    Governor.execute s_majorityFor env0 0 =
      CallOutcome.err GovernorError.ProposalNotAccepted s_majorityFor ∧
    Governor.execute s_majorityAgainst env0 0 =
      CallOutcome.ok s_majorityAgainst := by
  decide

/-- Claim C5: the weight should be `balance_of(caller) * SCALE /
total_supply`, with a `ZeroSupply` error on zero supply.  Evaluating the
code: the weight is the contract's OWN balance divided by total supply with
no scale factor — for balance 500 and supply 1000 it collapses to 0 where
the spec formula gives 500 * 10^12 / 1000; and on zero supply the code
panics (division by zero after `unwrap`) instead of returning an error. -/
theorem claim_C5 :
    vote_weight { env0 with total_supply_result := some 1000 } = some 0 ∧
    specWeight 500 1000 = 500000000000 ∧
    vote_weight { env0 with total_supply_result := some 0 } = none := by
  decide

/-- Claim C6: the zero-amount and zero-duration errors hold as claimed, but
the stored proposal's `vote_end` is `duration` itself (60), NOT
`block_timestamp + duration` (5 + 60 = 65). -/
theorem claim_C6 :
    Governor.propose s_new env5 9 0 60 =
      CallOutcome.err GovernorError.AmountShouldNotBeZero s_new ∧
    Governor.propose s_new env5 9 100 0 =
      CallOutcome.err GovernorError.DurationError s_new ∧
    Governor.propose s_new env5 9 100 60 =
      CallOutcome.ok
        { s_new with
          proposals := [(0, { to_ := 9, vote_start := 5, vote_end := 60,
                              executed := false, amount := 100 })] } := by
  decide

/-- Claim C7: each successful `propose` should use a fresh id and advance
the counter.  Evaluating the code: after a successful `propose` the counter
is still 0, and a second successful `propose` writes to the SAME id 0,
overwriting the first proposal (the stored entry at id 0 is now the second
proposal, with `to_ = 8`). -/
theorem claim_C7 :
    ((Governor.propose s_new env5 9 100 60).state?.map
        Governor.next_proposal_id) = some 0 ∧
    ((Governor.propose s_new env5 9 100 60).state?.bind fun s1 =>
        (Governor.propose s1 env5 8 200 70).state?.map fun s2 =>
          (s2.next_proposal_id, mget s2.proposals 0)) =
      some (0, some { to_ := 8, vote_start := 5, vote_end := 70,
                      executed := false, amount := 200 }) := by
  decide

/-- Claim C8: `execute` should never consult the vote record and never
return `AlreadyVoted`.  Evaluating the code at the failing input: with
quorum met and `for_votes < 50`, an executor who has NOT voted gets
`AlreadyVoted` from the vote-record guard copied into `execute`. -/
theorem claim_C8 :
    Governor.execute s_noVoter env0 0 =
      CallOutcome.err GovernorError.AlreadyVoted s_noVoter := by
  decide

/-- Claim C9: a FIRST vote by an account should be accepted, with
`AlreadyVoted` only on the second.  Evaluating the code at the failing
input: account 6 has never voted on proposal 0, yet its first
`vote(0, For)` (past the inverted timing guard) returns `AlreadyVoted`,
because the has-voted guard fires when the record `is_none`. -/
theorem claim_C9 :
    vget s_fresh.votes (0, 6) = none ∧
    Governor.vote s_fresh env6 0 VoteType.For =
      CallOutcome.err GovernorError.AlreadyVoted s_fresh := by
  decide

/-- Every `propose` outcome: an error carrying the unchanged state, or
success carrying the state with only `proposals` extended. -/
lemma propose_outcome_cases (s : Governor) (env : Env) (t : AccountId)
    (amount : Balance) (duration : Nat) :
    (∃ e, Governor.propose s env t amount duration = CallOutcome.err e s) ∨
    (∃ pr, Governor.propose s env t amount duration =
      CallOutcome.ok { s with proposals := minsert s.proposals s.next_proposal_id pr }) := by
  unfold Governor.propose
  split
  · exact Or.inl ⟨_, rfl⟩
  · split
    · exact Or.inl ⟨_, rfl⟩
    · exact Or.inr ⟨_, rfl⟩

/-- Every `vote_tail` outcome: a trap, or success carrying its input state
unchanged. -/
lemma vote_tail_cases (s1 : Governor) (env : Env) (id : ProposalId)
    (v : VoteType) :
    vote_tail s1 env id v = CallOutcome.trap ∨
    vote_tail s1 env id v = CallOutcome.ok s1 := by
  unfold vote_tail
  split
  · exact Or.inl rfl
  · split
    · exact Or.inl rfl
    · exact Or.inr rfl

/-- When the tally entry is missing, `vote_tail` traps: on the
`total_supply` `unwrap`, on the division by zero, or on the
`proposal_votes` `unwrap`. -/
lemma vote_tail_trap (s1 : Governor) (env : Env) (id : ProposalId)
    (v : VoteType) (h : mget s1.proposal_votes id = none) :
    vote_tail s1 env id v = CallOutcome.trap := by
  unfold vote_tail
  cases hw : vote_weight env with
  | none => rfl
  | some w => rw [h]

/-- Every `vote` outcome: a trap, an error carrying the unchanged state,
or success carrying the state with only the vote-record set extended. -/
lemma vote_outcome_cases (s : Governor) (env : Env) (id : ProposalId)
    (v : VoteType) :
    Governor.vote s env id v = CallOutcome.trap ∨
    (∃ e, Governor.vote s env id v = CallOutcome.err e s) ∨
    Governor.vote s env id v =
      CallOutcome.ok { s with votes := vinsert s.votes (id, env.caller) } := by
  unfold Governor.vote
  split
  · exact Or.inr (Or.inl ⟨_, rfl⟩)
  · split
    · exact Or.inr (Or.inl ⟨_, rfl⟩)
    · split
      · exact Or.inr (Or.inl ⟨_, rfl⟩)
      · split
        · exact Or.inr (Or.inl ⟨_, rfl⟩)
        · rcases vote_tail_cases
            { s with votes := vinsert s.votes (id, env.caller) } env id v with
            h | h
          · exact Or.inl h
          · exact Or.inr (Or.inr h)

/-- Every `execute` outcome: a trap, an error carrying the unchanged
state, or success carrying the unchanged state. -/
lemma execute_outcome_cases (s : Governor) (env : Env) (id : ProposalId) :
    Governor.execute s env id = CallOutcome.trap ∨
    (∃ e, Governor.execute s env id = CallOutcome.err e s) ∨
    Governor.execute s env id = CallOutcome.ok s := by
  unfold Governor.execute
  split
  · exact Or.inr (Or.inl ⟨_, rfl⟩)
  · split
    · exact Or.inr (Or.inl ⟨_, rfl⟩)
    · split
      · exact Or.inl rfl
      · split
        · exact Or.inr (Or.inl ⟨_, rfl⟩)
        · split
          · exact Or.inr (Or.inl ⟨_, rfl⟩)
          · split
            · exact Or.inr (Or.inl ⟨_, rfl⟩)
            · exact Or.inr (Or.inr rfl)

/-- Claim C10: (1)-(3) no entry point ever changes the `proposal_votes`
mapping (in particular nothing ever inserts into it); (4) a `vote` call
that passes all four validation guards on a proposal with no
`ProposalVote` entry traps (panics) — on the `total_supply` `unwrap`, on
division by zero, or on the `proposal_votes` `unwrap` — instead of
returning; (5) a first vote (caller has no vote record) never returns
`Ok`. -/
theorem claim_C10 :
    (∀ (s : Governor) (env : Env) (t : AccountId) (amount : Balance)
        (duration : Nat) (s' : Governor),
        (Governor.propose s env t amount duration).state? = some s' →
        s'.proposal_votes = s.proposal_votes) ∧
    (∀ (s : Governor) (env : Env) (id : ProposalId) (v : VoteType)
        (s' : Governor),
        (Governor.vote s env id v).state? = some s' →
        s'.proposal_votes = s.proposal_votes) ∧
    (∀ (s : Governor) (env : Env) (id : ProposalId) (s' : Governor),
        (Governor.execute s env id).state? = some s' →
        s'.proposal_votes = s.proposal_votes) ∧
    (∀ (s : Governor) (env : Env) (id : ProposalId) (v : VoteType)
        (p : Proposal),
        mget s.proposals id = some p →
        p.executed = false →
        ¬ p.vote_end > env.block_timestamp →
        vget s.votes (id, env.caller) = some () →
        mget s.proposal_votes id = none →
        Governor.vote s env id v = CallOutcome.trap) ∧
    (∀ (s : Governor) (env : Env) (id : ProposalId) (v : VoteType)
        (s' : Governor),
        vget s.votes (id, env.caller) = none →
        Governor.vote s env id v ≠ CallOutcome.ok s') := by
  refine ⟨?_, ?_, ?_, ?_, ?_⟩
  · intro s env t amount duration s' h
    rcases propose_outcome_cases s env t amount duration with ⟨e, hc⟩ | ⟨pr, hc⟩
    · rw [hc] at h
      simp only [CallOutcome.state?, Option.some.injEq] at h
      subst h; rfl
    · rw [hc] at h
      simp only [CallOutcome.state?, Option.some.injEq] at h
      subst h; rfl
  · intro s env id v s' h
    rcases vote_outcome_cases s env id v with hc | ⟨e, hc⟩ | hc
    · rw [hc] at h
      exact Option.noConfusion h
    · rw [hc] at h
      simp only [CallOutcome.state?, Option.some.injEq] at h
      subst h; rfl
    · rw [hc] at h
      simp only [CallOutcome.state?, Option.some.injEq] at h
      subst h; rfl
  · intro s env id s' h
    rcases execute_outcome_cases s env id with hc | ⟨e, hc⟩ | hc
    · rw [hc] at h
      exact Option.noConfusion h
    · rw [hc] at h
      simp only [CallOutcome.state?, Option.some.injEq] at h
      subst h; rfl
    · rw [hc] at h
      simp only [CallOutcome.state?, Option.some.injEq] at h
      subst h; rfl
  · intro s env id v p hp hex ht hv hpv
    unfold Governor.vote
    rw [hp]
    simp only [hex, Bool.false_eq_true, if_false, ht, if_false, hv,
      Option.isNone_some, Bool.false_eq_true, if_false]
    exact vote_tail_trap _ env id v hpv
  · intro s env id v s' hv
    unfold Governor.vote
    cases hm : mget s.proposals id with
    | none => simp
    | some p =>
      by_cases hex : p.executed = true
      · simp [hex]
      · by_cases ht : p.vote_end > env.block_timestamp
        · simp [hex, ht]
        · simp [hex, ht, hv]

/-- Witness for claim C10 at concrete inputs: in a state with a vote
record for caller 7 but no tally entry, a guard-passing `vote` traps; and
in a state where caller 7 has no vote record, `vote` does not return `Ok`
of the unchanged state. -/
theorem claim_C10_witness :
    Governor.vote s_ghost env0 0 VoteType.For = CallOutcome.trap ∧
    Governor.vote s_fresh env0 0 VoteType.For ≠ CallOutcome.ok s_fresh := by
  constructor
  · exact claim_C10.2.2.2.1 s_ghost env0 0 VoteType.For p0 (by decide)
      (by decide) (by decide) (by decide) (by decide)
  · exact claim_C10.2.2.2.2 s_fresh env0 0 VoteType.For s_fresh (by decide)

end Dao
